import Mathlib

/-!
Shallow embedding of `src/lib/handlers/targetHandler.js` (target handler of
the taiko automation tool) and proofs about it.

Modelling conventions:
* JavaScript strings are `String`, `null`/`undefined` string positions are
  `Option String` (`none` = absent).
* A thrown JavaScript exception is the `Except.error` branch of an
  `Except JsError _` result; code that cannot throw is given a total type.
* The Node builtins `url.parse` (legacy parser, `parseQueryString = true`)
  and `path.join` (posix) are embedded as `url_parse` and `path_join` for
  the URL shapes the handler deals in (optional scheme, optional `//host`,
  path, query/fragment kept verbatim for `href`); auth/port subtleties of
  the legacy parser are not needed by the handler and are not modelled.
* The collaborator `handleUrlRedirection` (from `../helper`) has no
  behaviour specified anywhere in this repository, so every function that
  calls it is parameterised by it (`hur : String → String`).
-/

/-- A JavaScript runtime value as far as the handler's return positions
need: `undefined`, a boolean, or a string. -/
inductive JsValue where
  | undef : JsValue
  | bool : Bool → JsValue
  | str : String → JsValue
deriving DecidableEq

/-- JavaScript truthiness for the values of `JsValue`. -/
def JsValue.truthy : JsValue → Bool
  | .undef => false
  | .bool b => b
  | .str s => !(s == "")

/-- The `response` object carried by a protocol error (`error.response`),
whose `message` may itself be absent. -/
structure ErrResponse where
  message : Option String
deriving DecidableEq

/-- A JavaScript error value: its constructor name, its `message`, and the
optional protocol `response` attached by the transport. -/
structure JsError where
  name : String
  message : String
  response : Option ErrResponse
deriving DecidableEq

/-- The error thrown by `new Error('No targets created yet!')` in
`waitForTargetToBeCreated`. -/
def noTargetsError : JsError :=
  { name := "Error", message := "No targets created yet!", response := none }

/-- The `TypeError` raised by evaluating `parsedUrl.protocol.concat(...)`
when `parsedUrl.protocol` is `null`. -/
def nullConcatTypeError : JsError :=
  { name := "TypeError",
    message := "Cannot read properties of null (reading 'concat')",
    response := none }

/-- Does `pat` occur at the head of `s` (character-list version)? -/
def headMatches : List Char → List Char → Bool
  | _, [] => true
  | [], _ :: _ => false
  | a :: as, b :: bs => a == b && headMatches as bs

/-- Does `pat` occur anywhere in `s` (character-list version)? -/
def hasSub : List Char → List Char → Bool
  | s, pat =>
    if headMatches s pat then true
    else
      match s with
      | [] => false
      | _ :: rest => hasSub rest pat

/-- JavaScript `s.includes(pat)` on strings. -/
def strIncludes (s pat : String) : Bool :=
  hasSub s.toList pat.toList

/-- JavaScript `a || b` on strings: the first operand if it is truthy
(non-empty), the second otherwise. -/
def jsOrStr (a b : String) : String :=
  if a = "" then b else a

/-- Result of Node's legacy `url.parse`: the fields the handler reads. -/
structure ParsedUrl where
  protocol : Option String
  host : Option String
  pathname : Option String
  href : String
deriving DecidableEq

/-- Lowercase a character list (the legacy parser lowercases protocol and
host). -/
def lowerChars (cs : List Char) : List Char :=
  cs.map Char.toLower

/-- Scheme characters accepted by the legacy parser's protocol pattern. -/
def isSchemeChar (c : Char) : Bool :=
  c.isAlpha || c.isDigit || c == '.' || c == '+' || c == '-'

/-- Protocols the legacy parser treats as slashed (a bare
`scheme://host` gets pathname `/`). -/
def slashedProtocols : List String :=
  ["http:", "https:", "ftp:", "gopher:", "file:", "ws:", "wss:"]

/-- Characters ending the host portion of a URL. -/
def isHostStop (c : Char) : Bool :=
  c == '/' || c == '?' || c == '#'

/-- Characters ending the pathname portion of a URL. -/
def isPathStop (c : Char) : Bool :=
  c == '?' || c == '#'

/-- Embedding of Node's legacy `url.parse` for the fields the handler
reads: an optional lowercased `scheme:` protocol, an optional lowercased
host when `//` follows the scheme, a pathname (defaulting to `/` for a
bare slashed-protocol URL with a host, `null` when empty otherwise), and
the reconstructed `href`. -/
def url_parse (s : String) : ParsedUrl :=
  let cs := s.toList
  let schemePart := cs.takeWhile isSchemeChar
  let afterScheme := cs.dropWhile isSchemeChar
  let protoRest : Option String × List Char :=
    match afterScheme with
    | ':' :: r =>
      if schemePart.isEmpty then (none, cs)
      else (some (String.mk (lowerChars schemePart) ++ ":"), r)
    | _ => (none, cs)
  let protocol := protoRest.1
  let rest := protoRest.2
  let slashesRest : Bool × List Char :=
    match rest with
    | '/' :: '/' :: r => (true, r)
    | _ => (false, rest)
  let slashes := slashesRest.1
  let rest2 := slashesRest.2
  let host : Option String :=
    if slashes then some (String.mk (lowerChars (rest2.takeWhile (fun c => !isHostStop c))))
    else none
  let rest3 := if slashes then rest2.dropWhile (fun c => !isHostStop c) else rest2
  let pathRaw := String.mk (rest3.takeWhile (fun c => !isPathStop c))
  let suffix := String.mk (rest3.dropWhile (fun c => !isPathStop c))
  let pathname : Option String :=
    if pathRaw = "" then
      match protocol, host with
      | some p, some h =>
        if slashedProtocols.contains p && !(h == "") then some "/" else none
      | _, _ => none
    else some pathRaw
  let href :=
    (protocol.getD "") ++ (if slashes then "//" else "") ++ (host.getD "")
      ++ (pathname.getD "") ++ suffix
  ⟨protocol, host, pathname, href⟩

/-- Split a character list on `/` (the segment list always has one more
entry than the number of slashes). -/
def splitSlash : List Char → List (List Char)
  | [] => [[]]
  | c :: rest =>
    match splitSlash rest with
    | [] => [[c]]
    | s :: ss => if c == '/' then [] :: s :: ss else (c :: s) :: ss

/-- Join path segments with `/`. -/
def joinSlash : List String → String
  | [] => ""
  | [s] => s
  | s :: rest => s ++ "/" ++ joinSlash rest

/-- Segment normalisation used by posix `path.join`: drop empty and `.`
segments, resolve `..` against the stack (keeping leading `..` in
relative paths). `stack` holds already-accepted segments in reverse. -/
def normSegs (allowUp : Bool) : List String → List String → List String
  | stack, [] => stack.reverse
  | stack, s :: rest =>
    if s = "" || s = "." then normSegs allowUp stack rest
    else if s = ".." then
      match stack with
      | top :: more =>
        if top = ".." then normSegs allowUp (s :: top :: more) rest
        else normSegs allowUp more rest
      | [] => if allowUp then normSegs allowUp [s] rest else normSegs allowUp [] rest
    else normSegs allowUp (s :: stack) rest

/-- Embedding of Node's posix `path.join` on two arguments: concatenate
with `/`, then normalise, preserving a trailing slash and returning `.`
for an empty result. -/
def path_join (a b : String) : String :=
  let joined := if a = "" then b else if b = "" then a else a ++ "/" ++ b
  if joined = "" then "."
  else
    let isAbs := joined.toList.head? = some '/'
    let hasTrail := joined.toList.getLast? = some '/'
    let segs := normSegs (!isAbs) [] ((splitSlash joined.toList).map String.mk)
    let core := joinSlash segs
    let res :=
      (if isAbs then "/" else "") ++ core
        ++ (if hasTrail && !(core == "") then "/" else "")
    if res = "" then "." else res

/-- Modelled from the spec: the left-trim utility `trimCharLeft` from
`../util` (not under `src/`), which strips a leading run of `c` and maps
an absent/empty base string to the empty string. -/
def trimCharLeft (s : Option String) (c : Char) : String :=
  match s with
  | none => ""
  | some s => String.mk (s.toList.dropWhile (fun d => d == c))

/-- Modelled from the spec: the HTML-escaping utility `escapeHtml` from
`../util` (not under `src/`): the five standard HTML replacements. -/
def escapeHtmlChar (c : Char) : String :=
  if c == '&' then "&amp;"
  else if c == '<' then "&lt;"
  else if c == '>' then "&gt;"
  else if c == Char.ofNat 34 then "&quot;"
  else if c == Char.ofNat 39 then "&#39;"
  else String.mk [c]

/-- HTML-escape a whole string. -/
def escapeHtml (s : String) : String :=
  String.join (s.toList.map escapeHtmlChar)

/-- A live debuggee target as the handler sees it (`cri.List` entries and
`Target.getTargetInfo` results): `id`, `url`, `title`, `type`, and the
optional owning browser context. -/
structure Target where
  id : String
  url : String
  title : String
  type : String
  browserContextId : Option String
deriving DecidableEq

/-- A JavaScript regular expression, abstracted to the truthiness of
`candidate.match(regex)`. -/
structure JsRegex where
  test : String → Bool

/-- A caller-supplied identifier: a string literal, a regular expression,
or an object carrying a `name` field (the `isRegex` / `isString` helpers
from `../helper` become the constructor tags). -/
inductive Identifier where
  | str : String → Identifier
  | regex : JsRegex → Identifier
  | named : String → Identifier

/-- The `name` property of an identifier: `undefined` on a string or a
regular expression, the stored name on a structured reference. -/
def Identifier.nameField : Identifier → Option String
  | .named n => some n
  | _ => none

/-- The module-level `targetRegistry` `Map`, observed through
`get`/`set`/`delete`/`clear`: a partial map from names to target ids. -/
abbrev TargetRegistry := String → Option String

/-- The empty registry (`new Map()`). -/
def emptyRegistry : TargetRegistry := fun _ => none

/-- `Map.prototype.set` observed through `get`. -/
def regSet (st : TargetRegistry) (name target : String) : TargetRegistry :=
  fun q => if q = name then some target else st q

/-- `Map.prototype.get`, with an absent (`undefined`) key: no write ever
stores a falsy key, so the lookup misses. -/
def regGet (st : TargetRegistry) (name : Option String) : Option String :=
  match name with
  | some n => st n
  | none => none

/-- Embedding of the dual-mode `register(name, target)`: when both
arguments are truthy (present, non-empty) it writes and returns
`undefined`; otherwise it reads. Returns the updated registry and the
returned value. -/
def register (st : TargetRegistry) (name target : Option String) :
    TargetRegistry × Option String :=
  match name, target with
  | some n, some t =>
    if n = "" || t = "" then (st, st n) else (regSet st n t, none)
  | name, _ => (st, regGet st name)

/-- Embedding of `unregister(name)`: `targetRegistry.delete(name)`. -/
def unregister (st : TargetRegistry) (name : String) : TargetRegistry :=
  fun q => if q = name then none else st q

/-- Embedding of `clearRegister()`: `targetRegistry.clear()`. -/
def clearRegister (_st : TargetRegistry) : TargetRegistry :=
  emptyRegistry

/-- Embedding of `isMatchingTarget(target, identifier)`: look the
identifier's `name` up in the registry; the JavaScript result is
`storedTarget && storedTarget === target.id`, which is `undefined` on a
miss, the empty string on a falsy stored value, and a boolean otherwise. -/
def isMatchingTarget (st : TargetRegistry) (target : Target)
    (identifier : Identifier) : JsValue :=
  match regGet st identifier.nameField with
  | none => .undef
  | some s => if s = "" then .str "" else .bool (s == target.id)

/-- Embedding of `prependHttp(targetUrl)`: prefix `http://` when the url
is truthy and has no parseable host (`url.parse(targetUrl).host === null`). -/
def prependHttp (targetUrl : String) : String :=
  if !(targetUrl == "") && (url_parse targetUrl).host = none then
    "http://" ++ targetUrl
  else targetUrl

/-- Embedding of `isMatchingUrl(target, identifier)`, parameterised by the
redirect-resolution collaborator `hur` (`handleUrlRedirection`). Returns
the boolean match result together with the target as left after the
side-effecting assignment `target.url = handleUrlRedirection(target.url)`.
A non-string identifier fails the `isString` guard and returns `false`
with the target untouched. -/
def isMatchingUrl (hur : String → String) (target : Target)
    (identifier : Identifier) : Bool × Target :=
  match identifier with
  | .str s =>
    let identifier := prependHttp s
    let parsedUrl := url_parse target.url
    let parsedTargetUrl := url_parse identifier
    let host := jsOrStr (parsedUrl.host.getD "") ""
    let targetHost := jsOrStr (parsedTargetUrl.host.getD "") ""
    let pathname := jsOrStr (parsedUrl.pathname.getD "") ""
    let targetPathname := jsOrStr (parsedTargetUrl.pathname.getD "") ""
    let urlPath := path_join host pathname
    let identifierPath := path_join targetHost targetPathname
    let mutated := { target with url := hur target.url }
    (target.title == escapeHtml identifier
        || urlPath == jsOrStr identifierPath identifier
        || parsedUrl.href == identifier,
      mutated)
  | _ => (false, target)

/-- Embedding of `isMatchingRegex(target, targetRegex)`: a non-regex
identifier fails the `isRegex` guard and yields `false`; otherwise the
target's URL is parsed and `parsedUrl.protocol.concat('//')` throws a
`TypeError` when the protocol is `null`; with a protocol present the
result is the truthiness of the four-way `match` chain. -/
def isMatchingRegex (target : Target) (identifier : Identifier) :
    Except JsError Bool :=
  match identifier with
  | .regex r =>
    let parsedUrl := url_parse target.url
    let host := jsOrStr (parsedUrl.host.getD "") ""
    let urlPath := path_join host (trimCharLeft parsedUrl.pathname '/')
    match parsedUrl.protocol with
    | none => .error nullConcatTypeError
    | some p =>
      let urlHrefPath := p ++ "//" ++ trimCharLeft (some host) '/'
      .ok (r.test target.title || r.test urlPath
        || r.test parsedUrl.href || r.test urlHrefPath)
  | _ => .ok false

/-- The successful result object of the transport's `Target.createTarget`. -/
structure CreatedTarget where
  targetId : String
deriving DecidableEq

/-- The intermediate value `createdTarget` inside `createTarget`: the
result object on the straight path, or the bare target-id string the
`catch` handler returns on the fallback path. -/
inductive CreatedVal where
  | obj : String → CreatedVal
  | str : String → CreatedVal
deriving DecidableEq

/-- Reading the `targetId` property of `createdTarget`: defined on the
result object, `undefined` on a bare string. -/
def CreatedVal.targetIdProp : CreatedVal → Option String
  | .obj id => some id
  | .str _ => none

/-- The stale-context test in `createTarget`'s catch handler:
`error.response && error.response.message && (message.includes('Failed to
find browser context with id') || message.includes('browserContextId'))`. -/
def isStaleContextError (e : JsError) : Bool :=
  match e.response with
  | none => false
  | some resp =>
    match resp.message with
    | none => false
    | some m =>
      !(m == "")
        && (strIncludes m "Failed to find browser context with id"
          || strIncludes m "browserContextId")

/-- The `await ... .catch(...)` dataflow of `createTarget`, parameterised
by the transport's `Target.createTarget` (first argument: the
`browserContextId` passed, `none` when the option is omitted). The first
call passes the active context id; a stale-context rejection retries once
with `{ url }` only, and the catch handler returns that result's
`.targetId` string; any other rejection is rethrown. -/
def createTargetRaw
    (transport : Option String → String → Except JsError CreatedTarget)
    (activeBrowserContextId : Option String) (url : String) :
    Except JsError CreatedVal :=
  match transport activeBrowserContextId url with
  | .ok r => .ok (.obj r.targetId)
  | .error e =>
    if isStaleContextError e then
      match transport none url with
      | .ok r => .ok (.str r.targetId)
      | .error e2 => .error e2
    else .error e

/-- Embedding of `createTarget(url)`: the function's resolved value is
`createdTarget.targetId` (`none` models a resolved `undefined`). -/
def createTarget
    (transport : Option String → String → Except JsError CreatedTarget)
    (activeBrowserContextId : Option String) (url : String) :
    Except JsError (Option String) :=
  (createTargetRaw transport activeBrowserContextId url).map
    CreatedVal.targetIdProp

/-- Trace of one run of `waitForTargetToBeCreated`: the settled value, the
number of `cri.List` queries performed, and the list of delays (in
milliseconds) slept between consecutive attempts. -/
structure WaitRun where
  result : Except JsError Target
  queries : Nat
  delays : List Nat

/-- The body of `waitForTargetToBeCreated`'s `try` block applied to one
`cri.List` outcome: a rejected list query rethrows; an empty list, or a
list without a `type === 'page'` entry, throws the no-targets error;
otherwise the first page target is returned. -/
def oneAttempt : Except JsError (List Target) → Except JsError Target
  | .error e => .error e
  | .ok ts =>
    if ts.length = 0 then .error noTargetsError
    else
      match ts.find? (fun t => t.type == "page") with
      | some t => .ok t
      | none => .error noTargetsError

/-- The run of one final attempt (remaining attempts `n < 2`): the `catch`
block rethrows whatever the attempt threw. -/
def waitStop (queries : Nat → Except JsError (List Target)) (k : Nat) :
    WaitRun :=
  match oneAttempt (queries k) with
  | .ok t => ⟨.ok t, 1, []⟩
  | .error e => ⟨.error e, 1, []⟩

/-- Embedding of `waitForTargetToBeCreated(n)`, with the successive
`cri.List` outcomes supplied as the stream `queries`; the first argument
is the remaining attempt count `n`, the second the index `k` of the next
query. The `catch` block rethrows when `n < 2` (the `0` and `1` cases)
and otherwise sleeps 100ms and recurses with `n - 1`. -/
def waitAux (queries : Nat → Except JsError (List Target)) :
    Nat → Nat → WaitRun
  | 0, k => waitStop queries k
  | 1, k => waitStop queries k
  | m + 2, k =>
    match oneAttempt (queries k) with
    | .ok t => ⟨.ok t, 1, []⟩
    | .error _ =>
      let rest := waitAux queries (m + 1) (k + 1)
      ⟨rest.result, rest.queries + 1, 100 :: rest.delays⟩

/-- Embedding of the exported `waitForTargetToBeCreated(n)` entry point:
the run starts at the first query of the stream. -/
def waitForTargetToBeCreated (queries : Nat → Except JsError (List Target))
    (n : Nat) : WaitRun :=
  waitAux queries n 0

/-- The `{ matching, others }` partition returned by `getCriTargets`. -/
structure TargetPartition where
  matching : List Target
  others : List Target
deriving DecidableEq

/-- JavaScript falsiness of the `identifier` argument of `getCriTargets`:
absent, or the empty string. -/
def identifierFalsy : Option Identifier → Bool
  | none => true
  | some (.str s) => s == ""
  | some _ => false

/-- The matcher loop of `getCriTargets` on the page list: each page is run
through the combined matcher (which may mutate the target and may throw),
and the possibly-mutated target is pushed onto `matching` or `others`. -/
def partitionPages (matcher : Target → Except JsError (Bool × Target)) :
    List Target → Except JsError TargetPartition
  | [] => .ok ⟨[], []⟩
  | t :: rest =>
    match matcher t with
    | .error e => .error e
    | .ok (b, t2) =>
      match partitionPages matcher rest with
      | .error e => .error e
      | .ok part =>
        if b then .ok ⟨t2 :: part.matching, part.others⟩
        else .ok ⟨part.matching, t2 :: part.others⟩

/-- The combined matcher `isMatchingUrl || isMatchingRegex ||
isMatchingTarget` evaluated left to right with short-circuiting, threading
the mutation performed by `isMatchingUrl`. -/
def combinedMatcher (hur : String → String) (st : TargetRegistry)
    (identifier : Identifier) (t : Target) : Except JsError (Bool × Target) :=
  let r1 := isMatchingUrl hur t identifier
  if r1.1 then .ok (true, r1.2)
  else
    match isMatchingRegex r1.2 identifier with
    | .error e => .error e
    | .ok b2 =>
      if b2 then .ok (true, r1.2)
      else .ok ((isMatchingTarget st r1.2 identifier).truthy, r1.2)

/-- Embedding of `getCriTargets(identifier)`, with the transport's target
list and the process-wide `activeTargetId` as inputs and the combined
matcher abstracted as `matcher`. A falsy identifier takes the fast path
that filters by identity against the active target id; otherwise every
page target is run through the matcher. -/
def getCriTargets (matcher : Identifier → Target → Except JsError (Bool × Target))
    (targets : List Target) (activeTargetId : String)
    (identifier : Option Identifier) : Except JsError TargetPartition :=
  let pages := targets.filter (fun t => t.type == "page")
  if identifierFalsy identifier then
    .ok ⟨pages.filter (fun t => t.id == activeTargetId),
      pages.filter (fun t => !(t.id == activeTargetId))⟩
  else
    match identifier with
    | some i => partitionPages (matcher i) pages
    | none => .ok ⟨[], []⟩

/-- Comparator written from the spec's words for C3: the target's URL is
resolved through the redirect collaborator BEFORE being parsed, so all
three equality checks run against the resolved URL. -/
def isMatchingUrlSpec (hur : String → String) (target : Target)
    (identifier : Identifier) : Bool × Target :=
  match identifier with
  | .str s =>
    let identifier := prependHttp s
    let resolved := hur target.url
    let parsedUrl := url_parse resolved
    let parsedTargetUrl := url_parse identifier
    let host := jsOrStr (parsedUrl.host.getD "") ""
    let targetHost := jsOrStr (parsedTargetUrl.host.getD "") ""
    let pathname := jsOrStr (parsedUrl.pathname.getD "") ""
    let targetPathname := jsOrStr (parsedTargetUrl.pathname.getD "") ""
    let urlPath := path_join host pathname
    let identifierPath := path_join targetHost targetPathname
    (target.title == escapeHtml identifier
        || urlPath == jsOrStr identifierPath identifier
        || parsedUrl.href == identifier,
      { target with url := resolved })
  | _ => (false, target)

/-- Transport stub for C1: rejects any `createTarget` call that carries a
`browserContextId` with a stale-context protocol error, and resolves a
context-less call with target id `T1`. -/
def c1Transport : Option String → String → Except JsError CreatedTarget :=
  fun ctx _ =>
    match ctx with
    | some _ =>
      .error ⟨"Error", "Protocol error",
        some ⟨some "Failed to find browser context with id ctx-1"⟩⟩
    | none => .ok ⟨"T1"⟩

/-- C1: with a transport that rejects the context-carrying call as a stale
context and creates target `T1` on the context-less retry, `createTarget`
resolves to `undefined` (`none`), not to the valid id `T1`: the catch
handler already extracted `.targetId`, and the final
`createdTarget.targetId` reads that property off a bare string. -/
theorem createTarget_stale_fallback_eval :
    c1Transport none "http://example.com" = Except.ok ⟨"T1"⟩ ∧
    createTarget c1Transport (some "ctx-1") "http://example.com" =
      Except.ok none :=
  ⟨rfl, rfl⟩

/-- Target with a scheme-less (malformed) URL used to exhibit the C2
exception. -/
def c2Target : Target := ⟨"t1", "example.com", "Example", "page", none⟩

/-- C2 counterexample: on a target whose URL has no parseable scheme,
`isMatchingRegex` throws the `TypeError` from
`parsedUrl.protocol.concat('//')` instead of returning a false-equivalent
value. -/
theorem isMatchingRegex_throw_example :
    isMatchingRegex c2Target (Identifier.regex ⟨fun _ => false⟩) =
      Except.error nullConcatTypeError :=
  rfl

/-- C2 (amended): `isMatchingUrl` and `isMatchingTarget` are total (no
throwing operation occurs in them; absent URL components default to empty
strings), but `isMatchingRegex` on a regex identifier throws the
null-`concat` `TypeError` exactly when the target's URL has no parseable
protocol, and returns a boolean whenever a protocol is present. -/
theorem isMatchingRegex_throw_iff_no_protocol :
    (∀ (t : Target) (r : JsRegex), (url_parse t.url).protocol = none →
      isMatchingRegex t (Identifier.regex r) = Except.error nullConcatTypeError) ∧
    (∀ (t : Target) (r : JsRegex), (url_parse t.url).protocol ≠ none →
      ∃ b, isMatchingRegex t (Identifier.regex r) = Except.ok b) := by
  constructor
  · intro t r h
    simp only [isMatchingRegex, h]
  · intro t r h
    cases hp : (url_parse t.url).protocol with
    | none => exact absurd hp h
    | some p =>
      simp only [isMatchingRegex, hp]
      exact ⟨_, rfl⟩

/-- Witness for the amended C2 theorem at concrete targets: the URL
`example.com` has no protocol and makes `isMatchingRegex` throw, while
`http://example.com/` has one and yields a boolean. -/
theorem isMatchingRegex_throw_iff_witness :
    (url_parse "example.com").protocol = none ∧
    isMatchingRegex (⟨"w1", "example.com", "T", "page", none⟩ : Target)
      (Identifier.regex ⟨fun _ => true⟩) = Except.error nullConcatTypeError ∧
    (url_parse "http://example.com/").protocol ≠ none ∧
    ∃ b, isMatchingRegex (⟨"w1", "http://example.com/", "T", "page", none⟩ : Target)
      (Identifier.regex ⟨fun _ => true⟩) = Except.ok b :=
  ⟨rfl, isMatchingRegex_throw_iff_no_protocol.1 _ _ rfl, by decide,
    isMatchingRegex_throw_iff_no_protocol.2 _ _ (by decide)⟩

/-- Redirect collaborator for the C3 counterexample: resolves every URL to
an unrelated address. -/
def c3hur : String → String := fun _ => "http://spec.example/"

/-- Target for the C3 counterexample. -/
def c3Target : Target := ⟨"t1", "http://example.com/", "T", "page", none⟩

/-- C3 counterexample: the code matches on the raw visible URL (`href`
equality holds although the redirect-resolved URL is unrelated), while the
spec's read of `isMatchingUrl` (parse the redirect-resolved URL) does not
match; the claim that all three checks are evaluated against the
redirect-resolved URL is therefore false. -/
theorem isMatchingUrl_raw_url_example :
    (isMatchingUrl c3hur c3Target (Identifier.str "http://example.com/")).1 = true ∧
    (isMatchingUrlSpec c3hur c3Target (Identifier.str "http://example.com/")).1 = false :=
  ⟨rfl, rfl⟩

/-- C3 (amended): `handleUrlRedirection` is applied to `target.url` and
stored back only AFTER the URL has been parsed; all three equality checks
are evaluated against the raw visible URL, so the match result does not
depend on the redirect-resolution collaborator at all. -/
theorem isMatchingUrl_result_ignores_redirect :
    ∀ (hur₁ hur₂ : String → String) (t : Target) (i : Identifier),
      (isMatchingUrl hur₁ t i).1 = (isMatchingUrl hur₂ t i).1 := by
  intro h1 h2 t i
  cases i <;> rfl

/-- C9: the identifier `example.com` has no parseable host and is
normalized to `http://example.com` by `prependHttp`, and for the target
titled `Example Domain` at `http://example.com/` the joined
host-plus-pathname paths agree, so `isMatchingUrl` returns `true`
(whatever the redirect collaborator does). -/
theorem isMatchingUrl_example_domain :
    prependHttp "example.com" = "http://example.com" ∧
    ∀ hur : String → String,
      (isMatchingUrl hur
        (⟨"t9", "http://example.com/", "Example Domain", "page", none⟩ : Target)
        (Identifier.str "example.com")).1 = true :=
  ⟨rfl, fun _ => rfl⟩

/-- C10: on every string identifier, `isMatchingUrl` overwrites
`target.url` with `handleUrlRedirection(target.url)` regardless of the
match outcome, and leaves `id`, `title`, `type` and `browserContextId`
unchanged. -/
theorem isMatchingUrl_mutates_target_url :
    ∀ (hur : String → String) (t : Target) (s : String),
      (isMatchingUrl hur t (Identifier.str s)).2.url = hur t.url ∧
      (isMatchingUrl hur t (Identifier.str s)).2.id = t.id ∧
      (isMatchingUrl hur t (Identifier.str s)).2.title = t.title ∧
      (isMatchingUrl hur t (Identifier.str s)).2.type = t.type ∧
      (isMatchingUrl hur t (Identifier.str s)).2.browserContextId =
        t.browserContextId :=
  fun _ _ _ => ⟨rfl, rfl, rfl, rfl, rfl⟩

/-- An attempt over a successfully listed set with no page target (or an
empty list) throws the no-targets error. -/
theorem oneAttempt_no_page {res : Except JsError (List Target)}
    {l : List Target} (hq : res = .ok l)
    (hf : l.find? (fun t => t.type == "page") = none) :
    oneAttempt res = .error noTargetsError := by
  subst hq
  by_cases h : l.length = 0
  · simp [oneAttempt, h]
  · simp [oneAttempt, h, hf]

/-- An attempt over a successfully listed set whose first page target is
`t` returns `t`. -/
theorem oneAttempt_finds_page {res : Except JsError (List Target)}
    {l : List Target} {t : Target} (hq : res = .ok l)
    (hf : l.find? (fun t => t.type == "page") = some t) :
    oneAttempt res = .ok t := by
  subst hq
  cases l with
  | nil => simp at hf
  | cons a as => simp [oneAttempt, hf]

/-- Unfolding `waitAux` at remaining attempts `≥ 2` when the attempt
fails: one delay of 100ms, then the recursive run. -/
theorem waitAux_step_err (queries : Nat → Except JsError (List Target))
    (m k : Nat) (e : JsError) (h : oneAttempt (queries k) = .error e) :
    waitAux queries (m + 2) k =
      ⟨(waitAux queries (m + 1) (k + 1)).result,
        (waitAux queries (m + 1) (k + 1)).queries + 1,
        100 :: (waitAux queries (m + 1) (k + 1)).delays⟩ := by
  have hd : waitAux queries (m + 2) k =
      match oneAttempt (queries k) with
      | .ok t => (⟨.ok t, 1, []⟩ : WaitRun)
      | .error _ =>
        ⟨(waitAux queries (m + 1) (k + 1)).result,
          (waitAux queries (m + 1) (k + 1)).queries + 1,
          100 :: (waitAux queries (m + 1) (k + 1)).delays⟩ := rfl
  rw [hd, h]

/-- Unfolding `waitAux` at remaining attempts `≥ 2` when the attempt
succeeds: the target is returned after a single query. -/
theorem waitAux_step_ok (queries : Nat → Except JsError (List Target))
    (m k : Nat) (t : Target) (h : oneAttempt (queries k) = .ok t) :
    waitAux queries (m + 2) k = ⟨.ok t, 1, []⟩ := by
  have hd : waitAux queries (m + 2) k =
      match oneAttempt (queries k) with
      | .ok t => (⟨.ok t, 1, []⟩ : WaitRun)
      | .error _ =>
        ⟨(waitAux queries (m + 1) (k + 1)).result,
          (waitAux queries (m + 1) (k + 1)).queries + 1,
          100 :: (waitAux queries (m + 1) (k + 1)).delays⟩ := rfl
  rw [hd, h]

/-- Unfolding `waitAux` at one remaining attempt when the attempt fails:
the error is rethrown after a single query, with no delay. -/
theorem waitAux_stop_err (queries : Nat → Except JsError (List Target))
    (k : Nat) (e : JsError) (h : oneAttempt (queries k) = .error e) :
    waitAux queries 1 k = ⟨.error e, 1, []⟩ := by
  show waitStop queries k = _
  unfold waitStop
  rw [h]

/-- C4: running `waitForTargetToBeCreated(3)` against a stream of target
lists that never contain a page entry performs exactly 3 list queries
separated by two fixed 100ms delays and rethrows the no-targets failure,
while against a stream whose second query lists a page target it returns
that target after only 2 queries and one delay. -/
theorem waitForTargetToBeCreated_retry_semantics :
    (∀ (queries : Nat → Except JsError (List Target)) (L : Nat → List Target),
      (∀ k, queries k = .ok (L k)) →
      (∀ k, (L k).find? (fun t => t.type == "page") = none) →
      waitForTargetToBeCreated queries 3 =
        ⟨.error noTargetsError, 3, [100, 100]⟩) ∧
    (∀ (queries : Nat → Except JsError (List Target)) (e : JsError)
        (l : List Target) (t : Target),
      oneAttempt (queries 0) = .error e →
      queries 1 = .ok l →
      l.find? (fun t => t.type == "page") = some t →
      waitForTargetToBeCreated queries 3 = ⟨.ok t, 2, [100]⟩) := by
  constructor
  · intro queries L hq hf
    have h0 := oneAttempt_no_page (hq 0) (hf 0)
    have h1 := oneAttempt_no_page (hq 1) (hf 1)
    have h2 := oneAttempt_no_page (hq 2) (hf 2)
    have s1 : waitAux queries 3 0 =
        ⟨(waitAux queries 2 1).result, (waitAux queries 2 1).queries + 1,
          100 :: (waitAux queries 2 1).delays⟩ :=
      waitAux_step_err queries 1 0 noTargetsError h0
    have s2 : waitAux queries 2 1 =
        ⟨(waitAux queries 1 2).result, (waitAux queries 1 2).queries + 1,
          100 :: (waitAux queries 1 2).delays⟩ :=
      waitAux_step_err queries 0 1 noTargetsError h1
    have s3 : waitAux queries 1 2 = ⟨.error noTargetsError, 1, []⟩ :=
      waitAux_stop_err queries 2 noTargetsError h2
    show waitAux queries 3 0 = _
    rw [s1, s2, s3]
  · intro queries e l t h0 hq1 hf1
    have h1 : oneAttempt (queries 1) = .ok t := oneAttempt_finds_page hq1 hf1
    have s1 : waitAux queries 3 0 =
        ⟨(waitAux queries 2 1).result, (waitAux queries 2 1).queries + 1,
          100 :: (waitAux queries 2 1).delays⟩ :=
      waitAux_step_err queries 1 0 e h0
    have s2 : waitAux queries 2 1 = ⟨.ok t, 1, []⟩ :=
      waitAux_step_ok queries 0 1 t h1
    show waitAux queries 3 0 = _
    rw [s1, s2]

/-- Query stream for the C4 witness whose lists stay empty. -/
def c4EmptyQueries : Nat → Except JsError (List Target) := fun _ => .ok []

/-- Page target appearing on the second query of the C4 witness stream. -/
def c4PageTarget : Target := ⟨"P1", "http://example.com/", "Example", "page", none⟩

/-- Query stream for the C4 witness whose second and later queries list a
page target. -/
def c4SecondQueries : Nat → Except JsError (List Target) :=
  fun k =>
    match k with
    | 0 => .ok []
    | _ => .ok [c4PageTarget]

/-- Witness for C4 at concrete query streams. -/
theorem waitForTargetToBeCreated_retry_witness :
    waitForTargetToBeCreated c4EmptyQueries 3 =
      ⟨.error noTargetsError, 3, [100, 100]⟩ ∧
    waitForTargetToBeCreated c4SecondQueries 3 = ⟨.ok c4PageTarget, 2, [100]⟩ :=
  ⟨waitForTargetToBeCreated_retry_semantics.1 c4EmptyQueries (fun _ => [])
      (fun _ => rfl) (fun _ => rfl),
    waitForTargetToBeCreated_retry_semantics.2 c4SecondQueries noTargetsError
      [c4PageTarget] c4PageTarget rfl rfl rfl⟩

/-- A run all of whose list queries reject with `e` settles on `e`. -/
theorem waitAux_all_err (queries : Nat → Except JsError (List Target))
    (e : JsError) (h : ∀ j, queries j = .error e) :
    ∀ n k, (waitAux queries n k).result = .error e
  | 0, k => by
    have ha : oneAttempt (queries k) = .error e := by rw [h k]; rfl
    show (waitStop queries k).result = _
    unfold waitStop
    rw [ha]
  | 1, k => by
    have ha : oneAttempt (queries k) = .error e := by rw [h k]; rfl
    show (waitStop queries k).result = _
    unfold waitStop
    rw [ha]
  | m + 2, k => by
    have ha : oneAttempt (queries k) = .error e := by rw [h k]; rfl
    rw [waitAux_step_err queries m k e ha]
    exact waitAux_all_err queries e h (m + 1) (k + 1)

/-- Transport error swallowed by the C5 counterexample's first query. -/
def c5TransportErr : JsError := ⟨"Error", "WebSocket connection closed", none⟩

/-- Page target listed from the second query on in the C5 counterexample. -/
def c5PageTarget : Target := ⟨"P5", "http://example.com/", "E", "page", none⟩

/-- Query stream whose first query rejects with a transport error and
whose later queries list a page target. -/
def c5Queries : Nat → Except JsError (List Target) :=
  fun k =>
    match k with
    | 0 => .error c5TransportErr
    | _ => .ok [c5PageTarget]

/-- C5 counterexample: a transport error raised by the first target-list
query inside `waitForTargetToBeCreated(3)` is caught and retried, and the
call settles successfully — the error does not propagate to the caller. -/
theorem waitForTargetToBeCreated_swallows_list_error :
    c5Queries 0 = Except.error c5TransportErr ∧
    (waitForTargetToBeCreated c5Queries 3).result = Except.ok c5PageTarget :=
  ⟨rfl, rfl⟩

/-- C5 (amended): a non-stale rejection of the transport's `createTarget`
propagates unchanged with no fallback, and a transport error from the
list query inside `waitForTargetToBeCreated` propagates unchanged only
once attempts are exhausted (it is caught, logged and retried while
attempts remain). -/
theorem transport_error_propagation :
    (∀ (transport : Option String → String → Except JsError CreatedTarget)
        (ctx : Option String) (u : String) (e : JsError),
      transport ctx u = .error e → isStaleContextError e = false →
      createTarget transport ctx u = .error e) ∧
    (∀ (queries : Nat → Except JsError (List Target)) (e : JsError) (n : Nat),
      (∀ j, queries j = .error e) →
      (waitForTargetToBeCreated queries n).result = .error e) := by
  constructor
  · intro transport ctx u e he hstale
    simp [createTarget, createTargetRaw, he, hstale, Except.map]
  · intro queries e n h
    exact waitAux_all_err queries e h n 0

/-- Transport stub for the C5 witness: always rejects with a plain
connection error. -/
def c5bTransport : Option String → String → Except JsError CreatedTarget :=
  fun _ _ => .error ⟨"Error", "net::ERR_CONNECTION_REFUSED", none⟩

/-- Query stream for the C5 witness: every list query rejects. -/
def c5bQueries : Nat → Except JsError (List Target) :=
  fun _ => .error ⟨"Error", "connect ECONNREFUSED", none⟩

/-- Witness for the amended C5 theorem at concrete transports. -/
theorem transport_error_propagation_witness :
    createTarget c5bTransport (some "ctx") "http://example.com" =
      Except.error ⟨"Error", "net::ERR_CONNECTION_REFUSED", none⟩ ∧
    (waitForTargetToBeCreated c5bQueries 3).result =
      Except.error ⟨"Error", "connect ECONNREFUSED", none⟩ :=
  ⟨transport_error_propagation.1 c5bTransport (some "ctx") "http://example.com"
      _ rfl rfl,
    transport_error_propagation.2 c5bQueries _ 3 (fun _ => rfl)⟩

/-- C6 counterexample: `register` with the empty (falsy) name takes the
read branch instead of writing, so a subsequent read returns absence, not
the id that the claim predicts for every name. -/
theorem register_empty_name_not_stored :
    (register (register emptyRegistry (some "") (some "id1")).1
      (some "") none).2 = none ∧
    (none : Option String) ≠ some "id1" :=
  ⟨rfl, by decide⟩

/-- C6 (amended): for truthy (non-empty) names and ids, a read after
`register(name, id)` returns `id`, a later write to the same name wins,
a read after `unregister(name)` returns absence, `unregister` is
idempotent, and after `clearRegister()` every read returns absence;
reads are total and never throw. -/
theorem registry_read_write_semantics :
    (∀ (st : TargetRegistry) (n t : String), n ≠ "" → t ≠ "" →
      (register (register st (some n) (some t)).1 (some n) none).2 = some t) ∧
    (∀ (st : TargetRegistry) (n t t2 : String), n ≠ "" → t ≠ "" → t2 ≠ "" →
      (register (register (register st (some n) (some t)).1
        (some n) (some t2)).1 (some n) none).2 = some t2) ∧
    (∀ (st : TargetRegistry) (n : String),
      (register (unregister st n) (some n) none).2 = none) ∧
    (∀ (st : TargetRegistry) (n : String),
      unregister (unregister st n) n = unregister st n) ∧
    (∀ (st : TargetRegistry) (n : String),
      (register (clearRegister st) (some n) none).2 = none) := by
  refine ⟨?_, ?_, ?_, ?_, ?_⟩
  · intro st n t hn ht
    simp [register, regSet, regGet, hn, ht]
  · intro st n t t2 hn ht ht2
    simp [register, regSet, regGet, hn, ht, ht2]
  · intro st n
    simp [register, regGet, unregister]
  · intro st n
    funext q
    by_cases hq : q = n <;> simp [unregister, hq]
  · intro st n
    simp [register, regGet, clearRegister, emptyRegistry]

/-- Witness for the amended C6 theorem at concrete names and ids. -/
theorem registry_read_write_witness :
    ("tab" : String) ≠ "" ∧
    (register (register emptyRegistry (some "tab") (some "T1")).1
      (some "tab") none).2 = some "T1" ∧
    (register (register (register emptyRegistry (some "tab") (some "T1")).1
      (some "tab") (some "T2")).1 (some "tab") none).2 = some "T2" ∧
    (register (unregister emptyRegistry "tab") (some "tab") none).2 = none ∧
    unregister (unregister emptyRegistry "tab") "tab" =
      unregister emptyRegistry "tab" ∧
    (register (clearRegister emptyRegistry) (some "tab") none).2 = none :=
  ⟨by decide,
    registry_read_write_semantics.1 emptyRegistry "tab" "T1"
      (by decide) (by decide),
    registry_read_write_semantics.2.1 emptyRegistry "tab" "T1" "T2"
      (by decide) (by decide) (by decide),
    registry_read_write_semantics.2.2.1 emptyRegistry "tab",
    registry_read_write_semantics.2.2.2.1 emptyRegistry "tab",
    registry_read_write_semantics.2.2.2.2 emptyRegistry "tab"⟩

/-- C7: over any registry whose stored identities are truthy (every value
written through `register` is), `isMatchingTarget` returns the boolean
`true` exactly when the registry maps the identifier's name to the
candidate target's id, and every absent or stale registration yields a
falsy (non-match) value. -/
theorem isMatchingTarget_iff_registry :
    ∀ (st : TargetRegistry) (t : Target) (n : String),
      (∀ k v, st k = some v → v ≠ "") →
      ((isMatchingTarget st t (Identifier.named n) = JsValue.bool true ↔
          st n = some t.id) ∧
        (st n ≠ some t.id →
          (isMatchingTarget st t (Identifier.named n)).truthy = false)) := by
  intro st t n hv
  cases hs : st n with
  | none =>
    constructor
    · constructor
      · intro h
        simp [isMatchingTarget, Identifier.nameField, regGet, hs] at h
      · intro h
        exact absurd h (by simp)
    · intro _
      simp [isMatchingTarget, Identifier.nameField, regGet, hs, JsValue.truthy]
  | some s =>
    have hsne : s ≠ "" := hv n s hs
    constructor
    · simp [isMatchingTarget, Identifier.nameField, regGet, hs, hsne]
    · intro hne
      have hst : s ≠ t.id := fun hc => hne (by rw [hc])
      have hb : (s == t.id) = false := by
        cases hbe : s == t.id with
        | false => rfl
        | true => exact absurd (eq_of_beq hbe) hst
      simp [isMatchingTarget, Identifier.nameField, regGet, hs, hsne,
        JsValue.truthy, hb]

/-- Witness for the C7 theorem at a concrete registry and targets: a
registered pair matches exactly the target carrying the stored id, and a
stale registration is a non-match. -/
theorem isMatchingTarget_iff_registry_witness :
    (regSet emptyRegistry "tab" "T1") "tab" = some "T1" ∧
    isMatchingTarget (regSet emptyRegistry "tab" "T1")
      (⟨"T1", "http://example.com/", "E", "page", none⟩ : Target)
      (Identifier.named "tab") = JsValue.bool true ∧
    (isMatchingTarget (regSet emptyRegistry "tab" "T1")
      (⟨"T2", "http://example.com/", "E", "page", none⟩ : Target)
      (Identifier.named "tab")).truthy = false := by
  have hv : ∀ k v, (regSet emptyRegistry "tab" "T1") k = some v → v ≠ "" := by
    intro k v h
    by_cases hk : k = "tab"
    · subst hk
      simp [regSet] at h
      subst h
      decide
    · simp [regSet, emptyRegistry, hk] at h
  refine ⟨rfl, ?_, ?_⟩
  · exact (isMatchingTarget_iff_registry (regSet emptyRegistry "tab" "T1")
      ⟨"T1", "http://example.com/", "E", "page", none⟩ "tab" hv).1.mpr (by simp [regSet])
  · exact (isMatchingTarget_iff_registry (regSet emptyRegistry "tab" "T1")
      ⟨"T2", "http://example.com/", "E", "page", none⟩ "tab" hv).2 (by simp [regSet])

/-- C8: with no identifier, `getCriTargets` is independent of the
identifier matcher and partitions the page targets of the listed set by
identity against the active target id, preserving the original order
(each partition is a sublist of the input list). -/
theorem getCriTargets_no_identifier_partition :
    ∀ (m₁ m₂ : Identifier → Target → Except JsError (Bool × Target))
      (ts : List Target) (act : String),
      getCriTargets m₁ ts act none = getCriTargets m₂ ts act none ∧
      ∃ part : TargetPartition,
        getCriTargets m₁ ts act none = .ok part ∧
        (∀ t, t ∈ part.matching ↔ t ∈ ts ∧ t.type = "page" ∧ t.id = act) ∧
        (∀ t, t ∈ part.others ↔ t ∈ ts ∧ t.type = "page" ∧ t.id ≠ act) ∧
        List.Sublist part.matching ts ∧ List.Sublist part.others ts := by
  intro m1 m2 ts act
  refine ⟨rfl, ⟨_, rfl, ?_, ?_, ?_, ?_⟩⟩
  · intro t
    simp [getCriTargets, identifierFalsy, List.mem_filter, and_assoc]
    tauto
  · intro t
    simp [getCriTargets, identifierFalsy, List.mem_filter, and_assoc]
    tauto
  · exact (List.filter_sublist _).trans (List.filter_sublist _)
  · exact (List.filter_sublist _).trans (List.filter_sublist _)

/-- Matcher stub for the C8 witness that matches everything. -/
def c8m1 : Identifier → Target → Except JsError (Bool × Target) :=
  fun _ t => .ok (true, t)

/-- Matcher stub for the C8 witness that matches nothing. -/
def c8m2 : Identifier → Target → Except JsError (Bool × Target) :=
  fun _ t => .ok (false, t)

/-- Concrete three-target list for the C8 witness. -/
def c8Targets : List Target :=
  [⟨"A", "http://a.example/", "a", "page", none⟩,
    ⟨"B", "http://b.example/", "b", "page", none⟩,
    ⟨"C", "http://c.example/", "c", "page", none⟩]

/-- Witness for the C8 theorem: at a concrete three-page list the result
ignores the matcher and partitions by the active id. -/
theorem getCriTargets_no_identifier_witness :
    getCriTargets c8m1 c8Targets "A" none = getCriTargets c8m2 c8Targets "A" none :=
  (getCriTargets_no_identifier_partition c8m1 c8m2 c8Targets "A").1
